import Mathlib

/-!
Shallow embedding of the two persistence managers of the repository:

* `FileStore` embeds `src/Entregable_03/src/ProductManager.js`, a product
  store backed by a single JSON file that is read whole, mutated in memory
  and rewritten whole on every mutation.
* `CartStore` embeds the cart manager of `src/unnamed/part_000`
  (`CartManagerMongo`), whose carts hold line items referencing products.

JavaScript values that matter to the behaviour are modelled explicitly:
an object property that may be absent (`undefined`) is an `Option`, the
truthiness test `!x` on a field is falsiness of the option (absent, empty
string, or the number 0), and `JSON.stringify` dropping `undefined`-valued
properties is the encoder emitting no field for `none`.
-/

namespace FileStore

/-- Product record as stored in the JSON file. `id` is always a number
(assigned by `addProduct`); the six attribute fields may be absent,
because `updateProduct` writes the destructured payload values, which are
`undefined` when not supplied, and `JSON.stringify` then drops them. -/
structure Product where
  id : Int
  title : Option String
  description : Option String
  price : Option Int
  thumbnail : Option String
  code : Option String
  stock : Option Int
deriving DecidableEq, Repr

/-- Payload passed to `addProduct` / `updateProduct`. Both destructure
exactly the six attribute names; any `id` field in the payload is never
read by the destructuring, which we keep to state that fact. -/
structure ProductFields where
  id : Option Int
  title : Option String
  description : Option String
  price : Option Int
  thumbnail : Option String
  code : Option String
  stock : Option Int
deriving DecidableEq, Repr

/-- Falsiness of a JS string-valued property: `!x` is true for `undefined`
and for the empty string. -/
def falsyStr : Option String → Bool
  | none => true
  | some s => s = ""

/-- Falsiness of a JS number-valued property: `!x` is true for `undefined`
and for `0`. -/
def falsyInt : Option Int → Bool
  | none => true
  | some n => n = 0

/-- Condition `!title || !description || !price || !thumbnail || !code || !stock`
guarding `addProduct` (line 99 of ProductManager.js). -/
def requiredMissing (np : ProductFields) : Bool :=
  falsyStr np.title || falsyStr np.description || falsyInt np.price ||
    falsyStr np.thumbnail || falsyStr np.code || falsyInt np.stock

/-- Embeds the private `#getNewID`: `1` on an empty list, otherwise the
`id` of the LAST element (`productList[productList.length - 1]`) plus one. -/
def getNewID (productList : List Product) : Int :=
  match productList.getLast? with
  | none => 1
  | some lastProductAdd => lastProductAdd.id + 1

/-- Record pushed by `addProduct`: the freshly generated id together with
the six destructured payload fields. -/
def newRecord (i : Int) (np : ProductFields) : Product :=
  { id := i, title := np.title, description := np.description,
    price := np.price, thumbnail := np.thumbnail, code := np.code,
    stock := np.stock }

/-- JS array indexing `list[i]`: `undefined` when out of range or negative. -/
def jsIndex (l : List Product) (i : Int) : Option Product :=
  if i < 0 then none else l.get? i.toNat

/-- Embeds `addProduct` acting on the parsed file contents. Returns the JS
return value (`none` is the `undefined` sentinel of the two rejection
branches; otherwise `productList[id - 1]` after the push) together with
the list persisted afterwards (unchanged on rejection, since the file is
only rewritten on the success path). -/
def addProduct (productList : List Product) (np : ProductFields) :
    Option Product × List Product :=
  if requiredMissing np then
    (none, productList)
  else if productList.any (fun product => product.code == np.code) then
    (none, productList)
  else
    let id := getNewID productList
    let newList := productList ++ [newRecord id np]
    (jsIndex newList (id - 1), newList)

/-- Embeds `deleteProduct`: keeps the products whose id differs
(`product.id != productID`) and persists that list. -/
def deleteProduct (productList : List Product) (productID : Int) : List Product :=
  productList.filter (fun product => product.id != productID)

/-- Embeds the body of `updateProduct`'s `map`: a matching product is
rebuilt as `{...product, title, description, price, thumbnail, code, stock}`,
so the spread keeps `id` (and only `id`, the structure having no other
extra field) while the six named properties take the destructured payload
values, `undefined` included. -/
def updateOne (productID : Int) (f : ProductFields) (product : Product) : Product :=
  if product.id = productID then
    { id := product.id, title := f.title, description := f.description,
      price := f.price, thumbnail := f.thumbnail, code := f.code,
      stock := f.stock }
  else
    product

/-- Embeds `updateProduct`: maps `updateOne` over the list and persists
the result. -/
def updateProduct (productList : List Product) (productID : Int)
    (f : ProductFields) : List Product :=
  productList.map (updateOne productID f)

/-- Embeds the lookup of `getProductById` on a readable store:
`productList.find((prod) => prod.id === productID)`. -/
def getProductById (productList : List Product) (productID : Int) : Option Product :=
  productList.find? (fun prod => prod.id == productID)

/-! JSON layer: the file holds `JSON.stringify(productList)` and
`getProducts` returns `JSON.parse` of it. We embed the serialized file as
a JSON tree; `JSON.stringify` emits no member for a property whose value
is `undefined`, and reading a missing member back yields `undefined`. -/

/-- JSON values as persisted in the product file. -/
inductive Json where
  | jnum (n : Int)
  | jstr (s : String)
  | jarr (xs : List Json)
  | jobj (fields : List (String × Json))

/-- Member emitted by `JSON.stringify` for a string-valued property:
nothing when the value is `undefined`. -/
def strField (k : String) (v : Option String) : List (String × Json) :=
  match v with
  | none => []
  | some s => [(k, Json.jstr s)]

/-- Member emitted by `JSON.stringify` for a number-valued property:
nothing when the value is `undefined`. -/
def numField (k : String) (v : Option Int) : List (String × Json) :=
  match v with
  | none => []
  | some n => [(k, Json.jnum n)]

/-- Serialization of one product record, members in the construction
order of the object literal in `addProduct`. -/
def productToJson (p : Product) : Json :=
  Json.jobj ([("id", Json.jnum p.id)] ++ strField "title" p.title ++
    strField "description" p.description ++ numField "price" p.price ++
    strField "thumbnail" p.thumbnail ++ strField "code" p.code ++
    numField "stock" p.stock)

/-- Serialization of the whole collection, as written by `addProduct`,
`updateProduct` and `deleteProduct` via `JSON.stringify(list)`. -/
def productsToJson (l : List Product) : Json :=
  Json.jarr (l.map productToJson)

/-- Property access on a parsed JSON object: first member with the given
key, `undefined` when absent. -/
def lookupField (fs : List (String × Json)) (k : String) : Option Json :=
  match fs.find? (fun kv => kv.fst == k) with
  | none => none
  | some kv => some kv.snd

/-- Reads a string-valued property of a parsed object. -/
def getStrField (fs : List (String × Json)) (k : String) : Option String :=
  match lookupField fs k with
  | some (Json.jstr s) => some s
  | _ => none

/-- Reads a number-valued property of a parsed object. -/
def getNumField (fs : List (String × Json)) (k : String) : Option Int :=
  match lookupField fs k with
  | some (Json.jnum n) => some n
  | _ => none

/-- Reads one parsed array element back as the logical product record. -/
def jsonToProduct (j : Json) : Option Product :=
  match j with
  | Json.jobj fs =>
    match lookupField fs "id" with
    | some (Json.jnum i) =>
      some { id := i, title := getStrField fs "title",
             description := getStrField fs "description",
             price := getNumField fs "price",
             thumbnail := getStrField fs "thumbnail",
             code := getStrField fs "code",
             stock := getNumField fs "stock" }
    | _ => none
  | _ => none

/-- Reads the parsed array elementwise. -/
def decodeProducts : List Json → Option (List Product)
  | [] => some []
  | j :: js =>
    match jsonToProduct j, decodeProducts js with
    | some p, some ps => some (p :: ps)
    | _, _ => none

/-- Embeds `getProducts` reading back a readable file: `JSON.parse` of the
stored text, interpreted as the logical collection. -/
def jsonToProducts (j : Json) : Option (List Product) :=
  match j with
  | Json.jarr xs => decodeProducts xs
  | _ => none

/-! Error layer: behaviour of each operation when the storage read fails
(missing file or unparsable contents). `getProducts` catches the failure
itself and returns `undefined`; what each caller then does with that
`undefined` differs per operation and is embedded below. -/

/-- State of the backing file as seen by one call. -/
inductive FileSt where
  | readable (l : List Product)
  | unreadable
deriving DecidableEq, Repr

/-- Outcome of one JS call: a returned value, or an exception escaping to
the caller (the promise rejecting). -/
inductive JsOut (α : Type) where
  | ret (a : α)
  | thrown
deriving DecidableEq, Repr

/-- Embeds `getProducts` with its try/catch: on a failing read or parse it
logs and returns `undefined`; it never throws. -/
def getProductsE : FileSt → Option (List Product)
  | FileSt.readable l => some l
  | FileSt.unreadable => none

/-- Embeds `deleteProduct` with error behaviour. The method has NO
try/catch: when `getProducts` returns `undefined`, the call
`productList.filter(...)` throws a TypeError that escapes to the caller. -/
def deleteProductE (st : FileSt) (productID : Int) :
    JsOut (List Product × FileSt) :=
  match getProductsE st with
  | some l =>
    let newList := deleteProduct l productID
    JsOut.ret (newList, FileSt.readable newList)
  | none => JsOut.thrown

/-- Embeds `getProductById` with error behaviour. When `getProducts`
returns `undefined`, `productList.find(...)` throws a TypeError which the
`catch` block intercepts; but that block interpolates the unbound name
`err` (the clause binds nothing), so it throws a ReferenceError that
escapes to the caller. -/
def getProductByIdE (st : FileSt) (productID : Int) : JsOut (Option Product) :=
  match getProductsE st with
  | some l => JsOut.ret (getProductById l productID)
  | none => JsOut.thrown

/-- Embeds `addProduct` with error behaviour: the required-fields check
runs before the read; on a failing read, `productList.some(...)` throws a
TypeError that the method's own catch turns into an `undefined` return,
leaving the file unwritten. -/
def addProductE (st : FileSt) (np : ProductFields) :
    JsOut (Option Product × FileSt) :=
  if requiredMissing np then
    JsOut.ret (none, st)
  else
    match st with
    | FileSt.unreadable => JsOut.ret (none, st)
    | FileSt.readable l =>
      let r := addProduct l np
      JsOut.ret (r.1, FileSt.readable r.2)

/-- Embeds `updateProduct` with error behaviour: on a failing read,
`productList.map(...)` throws a TypeError that the method's own catch
turns into an `undefined` return, leaving the file unwritten. -/
def updateProductE (st : FileSt) (productID : Int) (f : ProductFields) :
    JsOut (Option (List Product) × FileSt) :=
  match st with
  | FileSt.unreadable => JsOut.ret (none, st)
  | FileSt.readable l =>
    let newList := updateProduct l productID f
    JsOut.ret (some newList, FileSt.readable newList)

end FileStore

namespace CartStore

/-- Product document as referenced by a cart line item; only its object
id matters to the cart operations. -/
structure ProductDoc where
  oid : String
deriving DecidableEq, Repr

/-- Value held in a line item's `product` field inside a fetched cart.
`getCartById` runs `.populate('products.product').lean()`, so items coming
from the store carry the referenced document as a plain object; an item
pushed during the call (`{ product: product._id }`) carries the raw object
id. -/
inductive ProdRef where
  | populated (doc : ProductDoc)
  | objectId (oid : String)
deriving DecidableEq, Repr

/-- Line item as manipulated in memory by the cart methods. `quantity` is
absent (`none`) on an item pushed as `{ product: product._id }`. -/
structure LineItem where
  product : ProdRef
  quantity : Option Int
deriving DecidableEq, Repr

/-- Line item as saved back by `findOneAndUpdate`, after Mongoose casts
the subdocuments: the reference is an object id, the quantity a number. -/
structure SavedItem where
  product : String
  quantity : Int
deriving DecidableEq, Repr

/-- JS `String(x)` on a line item's `product` field: a plain populated
object stringifies to "[object Object]", a raw object id to its hex text. -/
def jsString : ProdRef → String
  | ProdRef.populated _ => "[object Object]"
  | ProdRef.objectId s => s

/-- Object id a reference stands for, regardless of population. -/
def refOid : ProdRef → String
  | ProdRef.populated d => d.oid
  | ProdRef.objectId s => s

/-- Modelled from the spec: the cart schema (`./models/cart.model.js`, not
under src/) is what `findOneAndUpdate` casts a pushed line item with, and
per the spec the insert operation yields a line item "at quantity 1", so
a missing quantity is filled with the schema default 1; the populated
reference is reduced back to its object id on save. -/
def castItem (item : LineItem) : SavedItem :=
  { product := refOid item.product, quantity := item.quantity.getD 1 }

/-- Condition of the `find` in `addProductToCart` and
`updateQuantityOfProduct`: `String(item.product) === String(productId)`. -/
def itemMatches (productId : String) (item : LineItem) : Bool :=
  jsString item.product == productId

/-- In-place `productExist.quantity++` on the first item the `find`
returned: the element is mutated inside the array. (JS `undefined + 1` is
`NaN`; an absent quantity is left absent here, a case no fetched cart
produces since saved items always carry a quantity.) -/
def incFirst : List LineItem → String → List LineItem
  | [], _ => []
  | item :: rest, productId =>
    if itemMatches productId item then
      { item with quantity := item.quantity.map (fun n => n + 1) } :: rest
    else
      item :: incFirst rest productId

/-- In-place `productExistInCart.quantity = parsedQuantity` on the first
item the `find` returned. -/
def setQtyFirst : List LineItem → String → Int → List LineItem
  | [], _, _ => []
  | item :: rest, productId, n =>
    if itemMatches productId item then
      { item with quantity := some n } :: rest
    else
      item :: setQtyFirst rest productId n

/-- Result of a cart mutation call: the `undefined` sentinel, the `null`
sentinel, or the cart saved (and returned) by `findOneAndUpdate` with
`{new: true}`. The store is written exactly in the `updated` case. -/
inductive CartUpdateRes where
  | undef
  | nullv
  | updated (products : List SavedItem)
deriving DecidableEq, Repr

/-- Value supplied as `newQuantity.quantity` to `updateQuantityOfProduct`:
either a value `isNaN` accepts, or one it rejects. -/
inductive JsQty where
  | num (n : Int)
  | notNum
deriving DecidableEq, Repr

/-- Embeds `addProductToCart` after its two lookups: `cart` is the line
item list of the cart `getCartById` fetched (hence populated), `product`
the result of `productManager.getProductById(productId)`. A missing
product returns the `undefined` sentinel; otherwise the first item whose
stringified reference equals the id gets its quantity incremented, else a
new `{ product: product._id }` item is pushed, and the whole list is
saved with `$set`. -/
def addProductToCart (cart : List LineItem) (productId : String)
    (product : Option ProductDoc) : CartUpdateRes :=
  match product with
  | none => CartUpdateRes.undef
  | some prod =>
    let newItems :=
      if (cart.find? (itemMatches productId)).isSome then
        incFirst cart productId
      else
        cart ++ [{ product := ProdRef.objectId prod.oid, quantity := none }]
    CartUpdateRes.updated (newItems.map castItem)

/-- Embeds `updateQuantityOfProduct` after its two lookups. A missing
product returns the `undefined` sentinel; when the `find` matches an item,
a quantity passing the `isNaN` check is written to it and the list saved,
a failing one returns the `undefined` sentinel; when the `find` matches
nothing the method returns `null` without saving. -/
def updateQuantityOfProduct (cart : List LineItem) (productId : String)
    (product : Option ProductDoc) (newQuantity : JsQty) : CartUpdateRes :=
  match product with
  | none => CartUpdateRes.undef
  | some _ =>
    if (cart.find? (itemMatches productId)).isSome then
      match newQuantity with
      | JsQty.num n =>
        CartUpdateRes.updated ((setQtyFirst cart productId n).map castItem)
      | JsQty.notNum => CartUpdateRes.undef
    else
      CartUpdateRes.nullv

end CartStore

open FileStore CartStore

/-- Stored product with id 1 and code "a", all fields present. -/
def prodA : Product :=
  { id := 1, title := some "t", description := some "d", price := some 10,
    thumbnail := some "th", code := some "a", stock := some 3 }

/-- Stored product with id 5 and code "a", all fields present. -/
def prodId5 : Product :=
  { id := 5, title := some "t", description := some "d", price := some 10,
    thumbnail := some "th", code := some "a", stock := some 3 }

/-- Stored product with id 3 and code "b", all fields present. -/
def prodId3 : Product :=
  { id := 3, title := some "t", description := some "d", price := some 10,
    thumbnail := some "th", code := some "b", stock := some 3 }

/-- Valid creation payload with fresh code "c". -/
def npFresh : ProductFields :=
  { id := none, title := some "t", description := some "d", price := some 10,
    thumbnail := some "th", code := some "c", stock := some 3 }

/-- Valid creation payload with fresh code "b". -/
def npB : ProductFields :=
  { id := none, title := some "t", description := some "d", price := some 10,
    thumbnail := some "th", code := some "b", stock := some 3 }

/-- Valid creation payload whose code "a" collides with `prodA`. -/
def npDupA : ProductFields :=
  { id := none, title := some "t", description := some "d", price := some 10,
    thumbnail := some "th", code := some "a", stock := some 3 }

/-- Creation payload with every field present and non-empty except that
`stock` carries the number 0, which is falsy in JS. -/
def np0 : ProductFields :=
  { id := none, title := some "t", description := some "d", price := some 10,
    thumbnail := some "th", code := some "c", stock := some 0 }

/-- Fully populated stored product with id 1, used for update claims. -/
def prodFull : Product :=
  { id := 1, title := some "a", description := some "d", price := some 10,
    thumbnail := some "th", code := some "c", stock := some 5 }

/-- Update payload supplying only `description`; the other five attribute
names are absent. -/
def fDescOnly : ProductFields :=
  { id := none, title := none, description := some "b", price := none,
    thumbnail := none, code := none, stock := none }

/-- Line item of a fetched cart, populated with product "p1", quantity 1. -/
def fetchedP1 : LineItem :=
  { product := ProdRef.populated ⟨"p1"⟩, quantity := some 1 }

/-- Line item of a fetched cart, populated with product "p1", quantity 2. -/
def fetchedP1q2 : LineItem :=
  { product := ProdRef.populated ⟨"p1"⟩, quantity := some 2 }

/-- Shared shape of the `addProduct` success path: with every required
field truthy and the payload's code held by no stored product, the method
appends exactly one record carrying the id `getNewID` computed and
persists the extended list. -/
lemma addProduct_accepts (l : List Product) (np : ProductFields)
    (h1 : requiredMissing np = false) (h2 : ∀ p ∈ l, p.code ≠ np.code) :
    addProduct l np =
      (jsIndex (l ++ [newRecord (getNewID l) np]) (getNewID l - 1),
       l ++ [newRecord (getNewID l) np]) := by
  have hany : l.any (fun product => product.code == np.code) = false := by
    rw [List.any_eq_false]
    intro p hp
    simpa using h2 p hp
  simp [addProduct, h1, hany]

/-- C1 (counterexample): on the stored collection `[prodId5, prodId3]`,
whose maximum identifier is 5, `addProduct` assigns the new product the
identifier 4 (one past the LAST record's id 3), not 6 as the claim's
"one greater than the maximum identifier" requires. -/
theorem addProduct_id_not_max_plus_one :
    ((addProduct [prodId5, prodId3] npFresh).2.getLast?).map Product.id = some 4
    ∧ prodId5 ∈ [prodId5, prodId3] ∧ prodId5.id = 5
    ∧ (∀ p ∈ [prodId5, prodId3], p.id ≤ 5)
    ∧ ((4 : Int) ≠ 5 + 1) := by decide

/-- C1 (amended): `addProduct`, on a payload passing the required-fields
check whose code no stored product holds, appends one record whose id is
`getNewID` of the stored collection: 1 when the collection is empty, and
one greater than the id of the LAST stored record otherwise. -/
theorem addProduct_assigns_last_id_plus_one (l : List Product)
    (np : ProductFields) (h1 : requiredMissing np = false)
    (h2 : ∀ p ∈ l, p.code ≠ np.code) :
    (addProduct l np).2 = l ++ [newRecord (getNewID l) np]
    ∧ (l = [] → getNewID l = 1)
    ∧ (∀ q, l.getLast? = some q → getNewID l = q.id + 1) := by
  refine ⟨?_, ?_, ?_⟩
  · rw [addProduct_accepts l np h1 h2]
  · intro h
    subst h
    rfl
  · intro q hq
    simp [getNewID, hq]

/-- C1 (witness): the amended statement evaluated on the one-record store
`[prodA]`: the appended record receives id 2 = 1 + 1. -/
theorem addProduct_assigns_last_id_plus_one_witness :
    (∀ p ∈ [prodA], p.code ≠ npB.code)
    ∧ (addProduct [prodA] npB).2 = [prodA] ++ [newRecord (getNewID [prodA]) npB]
    ∧ getNewID [prodA] = 2 :=
  ⟨by decide,
   (addProduct_assigns_last_id_plus_one [prodA] npB (by decide) (by decide)).1,
   by decide⟩

/-- C3: a creation payload whose code equals the code of some stored
product is rejected: `addProduct` returns the `undefined` sentinel and the
persisted collection is exactly the one before the call. -/
theorem addProduct_duplicate_code_rejected (l : List Product)
    (np : ProductFields) (p : Product) (hp : p ∈ l)
    (hcode : p.code = np.code) :
    addProduct l np = (none, l) := by
  by_cases hreq : requiredMissing np
  · simp [addProduct, hreq]
  · have hany : l.any (fun product => product.code == np.code) = true :=
      List.any_eq_true.mpr ⟨p, hp, by simp [hcode]⟩
    simp [addProduct, hreq, hany]

/-- C3 (witness): adding a payload with code "a" to a store already
holding `prodA` (code "a") returns the sentinel and leaves the store as
it was. -/
theorem addProduct_duplicate_code_rejected_witness :
    prodA.code = npDupA.code ∧ addProduct [prodA] npDupA = (none, [prodA]) :=
  ⟨by decide,
   addProduct_duplicate_code_rejected [prodA] npDupA prodA
     (List.mem_cons_self prodA []) (by decide)⟩

/-- C7: `deleteProduct` with an identifier matching no stored product
persists a list equal to the stored one, record for record and in order. -/
theorem deleteProduct_absent_id_noop (l : List Product) (productID : Int)
    (h : ∀ p ∈ l, p.id ≠ productID) :
    deleteProduct l productID = l := by
  rw [deleteProduct, List.filter_eq_self]
  intro p hp
  simpa using h p hp

/-- C7 (witness): deleting id 2 from the store `[prodA]` (whose only id
is 1) leaves the store unchanged. -/
theorem deleteProduct_absent_id_noop_witness :
    (∀ p ∈ [prodA], p.id ≠ 2) ∧ deleteProduct [prodA] 2 = [prodA] :=
  ⟨by decide, deleteProduct_absent_id_noop [prodA] 2 (by decide)⟩

/-- C2 (counterexample): updating `prodFull` (title "a") with a payload
supplying only `description` does not preserve the absent fields: the
persisted record's `title` becomes `undefined` (dropped on
serialization), losing the stored value "a". -/
theorem updateProduct_clobbers_absent_fields :
    updateProduct [prodFull] 1 fDescOnly =
      [{ id := 1, title := none, description := some "b", price := none,
         thumbnail := none, code := none, stock := none }]
    ∧ prodFull.title = some "a" := by decide

/-- C2 (amended): `updateProduct` keeps every record at its position and
leaves non-matching records untouched, but the matched record keeps only
its `id` (the one field outside the six destructured names): each of the
six attribute fields is replaced by the payload's value for that name,
which is `undefined` — hence absent after persistence — whenever the
payload does not supply it. -/
theorem updateProduct_overwrites_all_six_fields (l : List Product)
    (productID : Int) (f : ProductFields) (i : Nat) (p : Product)
    (hp : l.get? i = some p) :
    (updateProduct l productID f).length = l.length
    ∧ (p.id = productID → (updateProduct l productID f).get? i =
        some { id := p.id, title := f.title, description := f.description,
               price := f.price, thumbnail := f.thumbnail, code := f.code,
               stock := f.stock })
    ∧ (p.id ≠ productID → (updateProduct l productID f).get? i = some p) := by
  have hp2 : l[i]? = some p := by
    rw [← List.get?_eq_getElem?]
    exact hp
  refine ⟨by simp [updateProduct], ?_, ?_⟩
  · intro hid
    simp [updateProduct, List.get?_eq_getElem?, List.getElem?_map, hp2,
      updateOne, hid]
  · intro hid
    simp [updateProduct, List.get?_eq_getElem?, List.getElem?_map, hp2,
      updateOne, hid]

/-- C2 (witness): the amended statement evaluated on the store
`[prodFull]` with the description-only payload. -/
theorem updateProduct_overwrites_all_six_fields_witness :
    (updateProduct [prodFull] 1 fDescOnly).get? 0 =
      some { id := 1, title := none, description := some "b", price := none,
             thumbnail := none, code := none, stock := none } :=
  (updateProduct_overwrites_all_six_fields [prodFull] 1 fDescOnly 0 prodFull
    rfl).2.1 rfl

/-- C9: `updateProduct` never changes any record's identifier, whatever
the payload (including one carrying an `id` field, which the
destructuring never reads): the persisted list's ids equal the stored
list's ids, positionally. -/
theorem updateProduct_preserves_ids (l : List Product) (productID : Int)
    (f : ProductFields) :
    (updateProduct l productID f).map Product.id = l.map Product.id := by
  rw [updateProduct, List.map_map]
  apply List.map_congr_left
  intro p _
  by_cases h : p.id = productID <;> simp [updateOne, h]

/-- C6 (counterexample): a creation payload with every required field
present and non-empty — `stock` carries the number 0 — is nonetheless
rejected by `addProduct` (the check tests JS falsiness, and 0 is falsy);
the store stays unchanged. -/
theorem addProduct_rejects_present_zero_stock :
    np0.title = some "t" ∧ np0.description = some "d" ∧ np0.price = some 10
    ∧ np0.thumbnail = some "th" ∧ np0.code = some "c" ∧ np0.stock = some 0
    ∧ addProduct [] np0 = (none, []) := by decide

/-- C6 (amended): `addProduct`'s required-fields check rejects exactly the
payloads with some falsy field (absent, empty string, or the number 0),
returning the sentinel and leaving the store unchanged; a payload with
every field truthy passes the check, and when its code is fresh the
record is appended. -/
theorem addProduct_validates_truthiness (l : List Product)
    (np : ProductFields) :
    (requiredMissing np = true → addProduct l np = (none, l))
    ∧ (requiredMissing np = false → (∀ p ∈ l, p.code ≠ np.code) →
        (addProduct l np).2 = l ++ [newRecord (getNewID l) np]) := by
  constructor
  · intro h
    simp [addProduct, h]
  · intro h1 h2
    rw [addProduct_accepts l np h1 h2]

/-- C6 (witness): the amended statement evaluated on the zero-stock
payload (rejected on the empty store) and on the truthy payload `npFresh`
(accepted on the empty store). -/
theorem addProduct_validates_truthiness_witness :
    requiredMissing np0 = true ∧ addProduct [] np0 = (none, [])
    ∧ requiredMissing npFresh = false
    ∧ (addProduct [] npFresh).2 = [] ++ [newRecord (getNewID []) npFresh] :=
  ⟨by decide, (addProduct_validates_truthiness [] np0).1 (by decide),
   by decide,
   (addProduct_validates_truthiness [] npFresh).2 (by decide) (by decide)⟩

/-- Reading back the serialization of one product record recovers it:
the `id` member is always emitted, and each attribute member is emitted
exactly when the field is present, so every lookup returns the original
option. -/
lemma jsonToProduct_productToJson (p : Product) :
    jsonToProduct (productToJson p) = some p := by
  rcases p with ⟨i, t, d, pr, th, c, st⟩
  cases t <;> cases d <;> cases pr <;> cases th <;> cases c <;> cases st <;> rfl

/-- Elementwise decoding inverts elementwise encoding. -/
lemma decodeProducts_map (l : List Product) :
    decodeProducts (l.map productToJson) = some l := by
  induction l with
  | nil => rfl
  | cons p rest ih => simp [decodeProducts, jsonToProduct_productToJson, ih]

/-- C8: writing any product collection to the store with
`JSON.stringify` (as `addProduct`, `updateProduct` and `deleteProduct`
do) and reading it back as `getProducts` does yields the same logical
collection, with the same records in the same order. -/
theorem store_roundtrip (l : List Product) :
    jsonToProducts (productsToJson l) = some l := by
  rw [productsToJson, jsonToProducts, decodeProducts_map]

/-- C5 (counterexample): on an unreadable store, `deleteProduct` — the one
method with no try/catch — lets the TypeError raised by
`undefined.filter` escape to the caller instead of returning a sentinel. -/
theorem deleteProduct_exception_escapes :
    deleteProductE FileSt.unreadable 1 = JsOut.thrown := rfl

/-- C5 (amended): on a failing storage read, the file manager's
`getProducts`, `addProduct` and `updateProduct` catch the error, log it
and return the `undefined` sentinel with the store unwritten; but
`deleteProduct` (which has no try/catch) and `getProductById` (whose
catch block interpolates the unbound name `err` and so itself throws)
both let an exception escape to the caller. -/
theorem unreadable_store_behaviour (productID : Int) (np f : ProductFields) :
    getProductsE FileSt.unreadable = none
    ∧ addProductE FileSt.unreadable np = JsOut.ret (none, FileSt.unreadable)
    ∧ updateProductE FileSt.unreadable productID f =
        JsOut.ret (none, FileSt.unreadable)
    ∧ deleteProductE FileSt.unreadable productID = JsOut.thrown
    ∧ getProductByIdE FileSt.unreadable productID = JsOut.thrown := by
  refine ⟨rfl, ?_, rfl, rfl, rfl⟩
  by_cases h : requiredMissing np <;> simp [addProductE, h]

/-- C4 (code evaluated at the failing input): a fetched cart already
holding product "p1" at quantity 1, `addProductToCart` of "p1" again: the
`find` compares `String(item.product)` — "[object Object]" for the
populated item — with "p1", matches nothing, and the method pushes a
second line item for "p1", saving two line items of quantity 1 instead of
one of quantity 2. On a cart without the product, the insert branch does
save a single new line item at quantity 1. -/
theorem addProductToCart_appends_duplicate :
    addProductToCart [fetchedP1] "p1" (some ⟨"p1"⟩) =
      CartUpdateRes.updated
        [{ product := "p1", quantity := 1 }, { product := "p1", quantity := 1 }]
    ∧ addProductToCart [] "p2" (some ⟨"p2"⟩) =
      CartUpdateRes.updated [{ product := "p2", quantity := 1 }] := by decide

/-- C10 (counterexample): on a fetched cart holding product "p1" (quantity
2) and a non-numeric quantity payload, `updateQuantityOfProduct` returns
the `null` sentinel, not the `undefined` sentinel the claim states: the
populated line item never matches the stringified comparison, so the
product-not-in-cart branch answers before the `isNaN` check is reached. -/
theorem updateQuantity_notnum_returns_null :
    updateQuantityOfProduct [fetchedP1q2] "p1" (some ⟨"p1"⟩) JsQty.notNum =
      CartUpdateRes.nullv
    ∧ CartUpdateRes.nullv ≠ CartUpdateRes.undef := by decide

/-- C10 (amended): on a fetched (hence populated) cart holding a line item
for the given product id, `updateQuantityOfProduct` returns the `null`
sentinel and issues no update, whatever quantity is supplied: the `find`
compares "[object Object]" with the product id, never matches, and the
method takes the product-not-in-cart branch before examining the
quantity. -/
theorem updateQuantity_populated_cart_returns_null (cart : List LineItem)
    (productId : String) (prod : ProductDoc) (qty : JsQty)
    (hpop : ∀ item ∈ cart, ∃ d, item.product = ProdRef.populated d)
    (hid : productId ≠ "[object Object]")
    (hmem : ∃ item ∈ cart, refOid item.product = productId) :
    updateQuantityOfProduct cart productId (some prod) qty =
      CartUpdateRes.nullv := by
  have hfind : cart.find? (itemMatches productId) = none := by
    rw [List.find?_eq_none]
    intro item hitem
    obtain ⟨d, hd⟩ := hpop item hitem
    simp [itemMatches, jsString, hd]
    intro h
    exact hid h.symm
  simp [updateQuantityOfProduct, hfind]

/-- C10 (witness): the amended statement evaluated on a one-item fetched
cart for "p1" with a numeric quantity 7: still the `null` sentinel, no
update. -/
theorem updateQuantity_populated_cart_returns_null_witness :
    updateQuantityOfProduct [fetchedP1q2] "p1" (some ⟨"p1"⟩) (JsQty.num 7) =
      CartUpdateRes.nullv :=
  updateQuantity_populated_cart_returns_null [fetchedP1q2] "p1" ⟨"p1"⟩
    (JsQty.num 7)
    (by
      intro item hitem
      rw [List.mem_singleton] at hitem
      subst hitem
      exact ⟨⟨"p1"⟩, rfl⟩)
    (by decide)
    ⟨fetchedP1q2, List.mem_cons_self fetchedP1q2 [], rfl⟩
